import Mathlib

/-!
Shallow embedding of the cold-email lead pipeline
(`src/cold_email_processor.py`, `src/n8n_icebreaker_client.py`).

Python strings are Lean `String`s; Python's `p in s` substring test is
`hasSubstr` on character lists; Python integers are `Int` where the source
value is compared or clamped, `Nat` for the run counters (which only ever
increment from 0).  External effects (the relay HTTP call, the dispatch
HTTP call) are modelled by explicit outcome values passed to the embedded
function, one per call site, exactly reflecting the branches the source
takes on each outcome.  Environment-derived configuration is modelled at
its documented default values; the data-source profile, which selects the
column-mapping preset, is kept as an explicit argument.
-/

namespace ColdEmail

/-- `isPrefixCh p s`: the characters of `p` are an initial segment of `s`. -/
def isPrefixCh : List Char → List Char → Bool
  | [], _ => true
  | _ :: _, [] => false
  | p :: ps, s :: ss => (p == s) && isPrefixCh ps ss

/-- Python's substring test `p in s` over character lists: some suffix of `s`
starts with `p`. -/
def hasSubstr (p : List Char) : List Char → Bool
  | [] => isPrefixCh p []
  | c :: rest => isPrefixCh p (c :: rest) || hasSubstr p rest

/-- Python's `needle in hay` on strings. -/
def pyIn (needle hay : String) : Bool :=
  hasSubstr needle.data hay.data

/-- Python's `str.lower()`, character by character (the source only feeds it
ASCII header names and lead fields compared against ASCII keywords). -/
def lowerStr (s : String) : String :=
  String.mk (s.data.map Char.toLower)

/-- The whitespace characters Python's `str.strip()` removes. -/
def pyWhitespace (c : Char) : Bool :=
  c = ' ' ∨ c = '\t' ∨ c = '\n' ∨ c = '\r' ∨ c = '\x0b' ∨ c = '\x0c'

/-- Python's `str.strip()`: leading and trailing whitespace removed. -/
def pyStrip (s : String) : String :=
  String.mk (((s.data.dropWhile pyWhitespace).reverse.dropWhile pyWhitespace).reverse)

/-- `Lead` dataclass of `cold_email_processor.py` (lines 49-59): eight string
fields, `title` and `linkedin` defaulting to the empty string. -/
structure Lead where
  first_name : String
  last_name : String
  email : String
  company_name : String
  industry : String
  website : String
  title : String := ""
  linkedin : String := ""
deriving DecidableEq, Repr

/-- Company-size keywords of `calculate_lead_score` (line 565). -/
def companyKeywords : List String := ["agency", "consulting", "services"]

/-- `high_value_industries` of `calculate_lead_score` (line 569). -/
def high_value_industries : List String :=
  ["marketing", "consulting", "agency", "services", "legal", "accounting"]

/-- `decision_maker_titles` of `calculate_lead_score` (line 574). -/
def decision_maker_titles : List String :=
  ["owner", "ceo", "president", "founder", "director", "vp"]

/-- `any(keyword in lead.company_name.lower() for keyword in [...])` (line 565). -/
def companyRule (l : Lead) : Bool :=
  companyKeywords.any (fun k => pyIn k (lowerStr l.company_name))

/-- `any(industry in lead.industry.lower() for industry in high_value_industries)` (line 570). -/
def industryRule (l : Lead) : Bool :=
  high_value_industries.any (fun k => pyIn k (lowerStr l.industry))

/-- `any(title in lead.title.lower() for title in decision_maker_titles)` (line 575). -/
def titleRule (l : Lead) : Bool :=
  decision_maker_titles.any (fun k => pyIn k (lowerStr l.title))

/-- `lead.website and 'http' in lead.website` (line 579); note the source does
not lowercase the website here. -/
def websiteRule (l : Lead) : Bool :=
  (!(l.website == "")) && pyIn "http" l.website

/-- `if lead.linkedin` (line 583): truthiness of the string. -/
def linkedinRule (l : Lead) : Bool :=
  !(l.linkedin == "")

/-- `calculate_lead_score` (lines 557-586): sequential accumulation
`score = 0; if ...: score += 25; ...; return min(score, 100)`. -/
def calculate_lead_score (l : Lead) : Int :=
  let score : Int := 0
  let score := if companyRule l then score + 25 else score
  let score := if industryRule l then score + 30 else score
  let score := if titleRule l then score + 25 else score
  let score := if websiteRule l then score + 10 else score
  let score := if linkedinRule l then score + 10 else score
  min score 100

/-- The scorer as the specification words it: the sum of five independent
indicator terms, clamped to a maximum of 100. -/
def spec_lead_score (l : Lead) : Int :=
  min ((if companyRule l then (25 : Int) else 0)
      + (if industryRule l then 30 else 0)
      + (if titleRule l then 25 else 0)
      + (if websiteRule l then 10 else 0)
      + (if linkedinRule l then 10 else 0)) 100

/-- `assign_campaign_by_score` (lines 588-598). -/
def assign_campaign_by_score (score : Int) : String :=
  if score ≥ 80 then "enterprise-direct-pitch"
  else if score ≥ 60 then "professional-nurture"
  else "educational-sequence"

/-- Order of the campaign tiers, low to high, used to state monotonicity of
the router. -/
def tierRank (t : String) : Nat :=
  if t = "educational-sequence" then 0
  else if t = "professional-nurture" then 1
  else 2

/-- `Lead` dataclass of `n8n_icebreaker_client.py` (lines 18-27): seven
fields, the last three defaulting to the empty string. -/
structure N8nLead where
  first_name : String
  last_name : String
  email : String
  company_name : String
  industry : String := ""
  website : String := ""
  title : String := ""
deriving DecidableEq, Repr

/-- The conversion `generate_n8n_icebreaker` performs at
`cold_email_processor.py` lines 387-396 (the `linkedin` field is dropped). -/
def toN8nLead (l : Lead) : N8nLead :=
  { first_name := l.first_name, last_name := l.last_name, email := l.email,
    company_name := l.company_name, industry := l.industry,
    website := l.website, title := l.title }

/-- The dictionary `_get_fallback_response` returns
(`n8n_icebreaker_client.py` lines 115-122). -/
structure N8nResult where
  icebreaker : String
  company_name : String
  status : String
  error : String
  provider : String
  generated_at : Option String
deriving DecidableEq, Repr

/-- The text `_get_fallback_response` computes (`n8n_icebreaker_client.py`
lines 106-113): `.format` on the default `ICEBREAKER_FALLBACK` template
(which carries no trailing period here), substituting `company_name` and
`lead.industry or "business"`; `first_name` is passed but the default
template does not reference it. -/
def n8nFallbackIcebreaker (l : N8nLead) : String :=
  "Impressed by what you're building at " ++ l.company_name
    ++ ", particularly your approach in the "
    ++ (if l.industry = "" then "business" else l.industry) ++ " space"

/-- `_get_fallback_response` of `n8n_icebreaker_client.py` (lines 104-122). -/
def get_fallback_response (l : N8nLead) (error : String) : N8nResult :=
  { icebreaker := n8nFallbackIcebreaker l, company_name := l.company_name,
    status := "fallback", error := error, provider := "fallback",
    generated_at := none }

/-- Outcome of the one HTTP POST `generate_icebreaker` makes to the relay
(`n8n_icebreaker_client.py` lines 77-102): a 200 response with a parsed
body, a non-200 status code, a timeout, a connection failure, or any other
exception. -/
inductive RelayOutcome
  | ok (body : N8nResult)
  | httpError (code : Nat)
  | timeout
  | connectionError
  | exception (msg : String)
deriving DecidableEq, Repr

/-- `N8nIcebreakerClient.generate_icebreaker` (`n8n_icebreaker_client.py`
lines 51-102), with the relay call's outcome made explicit: a 200 response
returns the parsed body verbatim; every failure branch returns
`_get_fallback_response` with the captured error string. -/
def generate_icebreaker (l : N8nLead) (outcome : RelayOutcome) : N8nResult :=
  match outcome with
  | .ok body => body
  | .httpError code => get_fallback_response l ("HTTP " ++ toString code)
  | .timeout => get_fallback_response l "Request timeout"
  | .connectionError => get_fallback_response l "Connection error"
  | .exception msg => get_fallback_response l msg

/-- `get_icebreaker_fallback` of `cold_email_processor.py` (lines 368-377):
`.format` on the default `ICEBREAKER_FALLBACK` template — which here ends
with a trailing period, unlike the client-side default. -/
def get_icebreaker_fallback (l : Lead) : String :=
  "Impressed by what you're building at " ++ l.company_name
    ++ ", particularly your approach in the "
    ++ (if l.industry = "" then "business" else l.industry) ++ " space."

/-- `generate_n8n_icebreaker` of `cold_email_processor.py` (lines 379-413)
when the relay client is configured, with the relay outcome explicit:
on `status == "success"` or `status == "fallback"` the client's text is
returned; on any other status the processor-level fallback is used. -/
def generate_n8n_icebreaker (l : Lead) (outcome : RelayOutcome) : String :=
  let result := generate_icebreaker (toN8nLead l) outcome
  if result.status = "success" then result.icebreaker
  else if result.status = "fallback" then result.icebreaker
  else get_icebreaker_fallback l

/-- `generate_claude_icebreaker` (lines 415-419) when no direct Claude
client is configured: it returns the processor-level fallback. -/
def generate_claude_icebreaker_noclient (l : Lead) : String :=
  get_icebreaker_fallback l

/-- `validate_lead` of `cold_email_processor.py` (lines 237-247). -/
def validate_lead (l : Lead) : Bool :=
  if l.email = "" ∨ l.email.data.contains '@' = false then false
  else if l.company_name = "" ∨ (pyStrip l.company_name).length < 2 then false
  else if l.first_name = "" ∧ l.last_name = "" then false
  else true

instance {ε α : Type} [DecidableEq ε] [DecidableEq α] : DecidableEq (Except ε α) := fun
  | .error a, .error b =>
    if h : a = b then .isTrue (by rw [h]) else .isFalse (fun hh => by cases hh; exact h rfl)
  | .error _, .ok _ => .isFalse (fun hh => by cases hh)
  | .ok _, .error _ => .isFalse (fun hh => by cases hh)
  | .ok a, .ok b =>
    if h : a = b then .isTrue (by rw [h]) else .isFalse (fun hh => by cases hh; exact h rfl)

/-- The eight canonical lead fields (the keys of the mapping dictionaries in
`cold_email_processor.py`). -/
inductive Field
  | first_name | last_name | email | company_name
  | industry | website | title | linkedin
deriving DecidableEq, Repr

/-- `field_variations` of `detect_csv_columns` (lines 199-208). -/
def field_variations : Field → List String
  | .first_name => ["first_name", "first name", "firstname", "fname", "given_name"]
  | .last_name => ["last_name", "last name", "lastname", "lname", "family_name", "surname"]
  | .email => ["email", "email_address", "email address", "e_mail", "mail"]
  | .company_name => ["company_name", "company name", "company", "organization", "org"]
  | .industry => ["industry", "sector", "vertical", "business_type"]
  | .website => ["website", "website_url", "web_site", "url", "domain", "company_url"]
  | .title => ["title", "job_title", "position", "role", "job title"]
  | .linkedin => ["linkedin", "linkedin_url", "linkedin profile", "li_profile"]

/-- Default FindyLead mapping of `get_column_mapping` (lines 161-170):
identity names. -/
def defaultMapping : Field → String
  | .first_name => "first_name"
  | .last_name => "last_name"
  | .email => "email"
  | .company_name => "company_name"
  | .industry => "industry"
  | .website => "website"
  | .title => "title"
  | .linkedin => "linkedin"

/-- Apollo preset of `get_column_mapping` (lines 173-182) at the documented
environment defaults. -/
def apolloMapping : Field → String
  | .first_name => "first_name"
  | .last_name => "last_name"
  | .email => "email"
  | .company_name => "company"
  | .industry => "industry"
  | .website => "website_url"
  | .title => "title"
  | .linkedin => "linkedin"

/-- `get_column_mapping` (lines 156-189): the Apollo preset is merged over
the default when the data-source profile selects it. -/
def get_column_mapping (data_source : String) : Field → String :=
  if data_source = "apollo_csv" ∨ data_source = "apollo" then apolloMapping
  else defaultMapping

/-- `detect_csv_columns` (lines 191-217): lowercase the header names, then
for each field return the first alias that occurs among the lowered
headers.  Note it returns the alias itself, not the original header. -/
def detect_csv_columns (headers : List String) (f : Field) : Option String :=
  let columns := headers.map lowerStr
  (field_variations f).find? (fun variation => columns.contains variation)

/-- A tabular source: header names plus rows of raw cell values, each row
aligned with the headers. -/
structure DataFrame where
  headers : List String
  rows : List (List String)
deriving DecidableEq, Repr

/-- `row.get(column_name, '')`: a row's raw value under a column name. -/
def rowGet (headers row : List String) (col : String) : String :=
  match headers.indexOf? col with
  | some i => row.getD i ""
  | none => ""

/-- `str(row.get(column_name, '')).strip()` followed by the sentinel
cleanup of lines 326-329. -/
def cleanValue (v : String) : String :=
  let value := pyStrip v
  if lowerStr value = "nan" ∨ lowerStr value = "none" ∨ lowerStr value = "null"
      ∨ lowerStr value = "" then ""
  else value

/-- `final_mapping` of `_process_dataframe_to_leads` (line 313): the
detected column when an alias matched, else the configured mapping. -/
def final_mapping (data_source : String) (headers : List String) (f : Field) : String :=
  (detect_csv_columns headers f).getD (get_column_mapping data_source f)

/-- The per-field extraction of lines 323-330 combined with
`lead_data.get(field, '')`: the value is read only when the mapped column
name is non-empty and literally present among the headers. -/
def extractField (df : DataFrame) (mapping : Field → String)
    (row : List String) (f : Field) : String :=
  let column_name := mapping f
  if column_name ≠ "" ∧ df.headers.contains column_name then
    cleanValue (rowGet df.headers row column_name)
  else ""

/-- The `Lead(...)` construction of lines 332-341 for one row. -/
def rowToLead (data_source : String) (df : DataFrame) (row : List String) : Lead :=
  let m := final_mapping data_source df.headers
  { first_name := extractField df m row .first_name,
    last_name := extractField df m row .last_name,
    email := extractField df m row .email,
    company_name := extractField df m row .company_name,
    industry := extractField df m row .industry,
    website := extractField df m row .website,
    title := extractField df m row .title,
    linkedin := extractField df m row .linkedin }

/-- The candidate lead of every row, in order. -/
def candidateLeads (data_source : String) (df : DataFrame) : List Lead :=
  df.rows.map (rowToLead data_source df)

/-- The row loop of lines 320-353: valid leads are appended in order,
invalid ones are counted as skipped. -/
def leadLoop : List Lead → List Lead × Nat
  | [] => ([], 0)
  | l :: rest =>
    let p := leadLoop rest
    if validate_lead l then (l :: p.1, p.2) else (p.1, p.2 + 1)

/-- `_process_dataframe_to_leads` (lines 302-361): run the loop, then raise
`ValueError("No valid leads found in data source")` when zero leads
validated. -/
def process_dataframe_to_leads (data_source : String) (df : DataFrame) :
    Except String (List Lead) :=
  if (leadLoop (candidateLeads data_source df)).1.length = 0 then
    Except.error "No valid leads found in data source"
  else Except.ok (leadLoop (candidateLeads data_source df)).1

/-- Outcome of the per-lead body of `process_leads_batch` (lines 690-718):
all steps ran and `create_instantly_lead` returned True; it returned False
(non-200 dispatch response or a request exception it absorbed); or some
step raised and the `except` branch ran. -/
inductive Outcome
  | ok
  | dispatchFail
  | raised
deriving DecidableEq, Repr

/-- Whether the per-lead body counted the lead as successful. -/
def isOk : Outcome → Bool
  | .ok => true
  | .dispatchFail => false
  | .raised => false

/-- The `stats` accumulator of `process_leads_batch` (lines 668-677). -/
structure RunStatistics where
  total_processed : Nat
  successful : Nat
  failed : Nat
  dist_enterprise : Nat
  dist_professional : Nat
  dist_educational : Nat
deriving DecidableEq, Repr

/-- The zero-initialised accumulator of lines 668-677. -/
def initStats : RunStatistics :=
  { total_processed := 0, successful := 0, failed := 0,
    dist_enterprise := 0, dist_professional := 0, dist_educational := 0 }

/-- `stats['campaign_distribution'][campaign_name] += 1` (line 706). -/
def bumpDist (s : RunStatistics) (campaign : String) : RunStatistics :=
  if campaign = "enterprise-direct-pitch" then
    { s with dist_enterprise := s.dist_enterprise + 1 }
  else if campaign = "professional-nurture" then
    { s with dist_professional := s.dist_professional + 1 }
  else if campaign = "educational-sequence" then
    { s with dist_educational := s.dist_educational + 1 }
  else s

/-- The per-lead body of `process_leads_batch` (lines 690-718): on success
the tier counter for the routed campaign and `successful` are incremented;
on a failed dispatch or a raised exception `failed` is incremented;
`processed` is incremented in every case. -/
def processStep (s : RunStatistics) (item : Lead × Outcome) : RunStatistics :=
  match item.2 with
  | .ok =>
      let campaign := assign_campaign_by_score (calculate_lead_score item.1)
      let s := bumpDist s campaign
      { s with successful := s.successful + 1,
               total_processed := s.total_processed + 1 }
  | .dispatchFail =>
      { s with failed := s.failed + 1,
               total_processed := s.total_processed + 1 }
  | .raised =>
      { s with failed := s.failed + 1,
               total_processed := s.total_processed + 1 }

/-- `process_leads_batch` (lines 658-730) with each lead's external outcome
explicit.  The batch chunking of line 686 only inserts pauses and log
lines; the loop visits every lead once, in order, so the final counters are
the fold of the per-lead body over the whole list. -/
def process_leads_batch (items : List (Lead × Outcome)) : RunStatistics :=
  items.foldl processStep initStats

/-- Sum of the three per-tier counters of `campaign_distribution`. -/
def distSum (s : RunStatistics) : Nat :=
  s.dist_enterprise + s.dist_professional + s.dist_educational

/-- The numbers `generate_processing_report` renders (lines 732-766); the
success rate `successful/total_processed*100`, shown with one decimal, is
kept as tenths of a percent. -/
structure Report where
  total_processed : Nat
  successful : Nat
  failed : Nat
  success_rate_tenths : Nat
  dist_enterprise : Nat
  dist_professional : Nat
  dist_educational : Nat
deriving DecidableEq, Repr

/-- `generate_processing_report` (lines 732-766): the f-string divides
`stats['successful']` by `stats['total_processed']` (line 742), so a zero
`total_processed` raises `ZeroDivisionError` before any report is built. -/
def generate_processing_report (s : RunStatistics) : Except String Report :=
  if s.total_processed = 0 then
    Except.error "ZeroDivisionError: division by zero"
  else
    Except.ok
      { total_processed := s.total_processed, successful := s.successful,
        failed := s.failed,
        success_rate_tenths := s.successful * 1000 / s.total_processed,
        dist_enterprise := s.dist_enterprise,
        dist_professional := s.dist_professional,
        dist_educational := s.dist_educational }

/-! ### Helper lemmas -/

/-- The sequential accumulation of the source scorer equals the clamped sum
of the five indicator terms. -/
theorem score_eq_spec (l : Lead) : calculate_lead_score l = spec_lead_score l := by
  unfold calculate_lead_score spec_lead_score
  cases companyRule l <;> cases industryRule l <;> cases titleRule l <;>
    cases websiteRule l <;> cases linkedinRule l <;> rfl

theorem spec_lead_score_nonneg (l : Lead) : 0 ≤ spec_lead_score l := by
  unfold spec_lead_score
  cases companyRule l <;> cases industryRule l <;> cases titleRule l <;>
    cases websiteRule l <;> cases linkedinRule l <;> decide

theorem spec_lead_score_le_100 (l : Lead) : spec_lead_score l ≤ 100 :=
  min_le_right _ _

/-- An indicator term is monotone when the rule is preserved. -/
theorem indicator_mono {a b : Bool} {c : Int} (hc : 0 ≤ c) (h : a = true → b = true) :
    (if a then c else 0) ≤ (if b then c else 0) := by
  cases a
  · cases b
    · simp
    · simpa using hc
  · simp [h rfl]

/-! ### Claim theorems -/

/-- The website rule as the claim words it: a case-insensitive substring
match for "http". -/
def claimWebsiteRule (l : Lead) : Bool :=
  (!(l.website == "")) && pyIn "http" (lowerStr l.website)

/-- The scorer exactly as the claim words it: five case-insensitive rules,
summed and clamped to 100. -/
def claim_lead_score (l : Lead) : Int :=
  min ((if companyRule l then (25 : Int) else 0)
      + (if industryRule l then 30 else 0)
      + (if titleRule l then 25 else 0)
      + (if claimWebsiteRule l then 10 else 0)
      + (if linkedinRule l then 10 else 0)) 100

/-- A lead whose only scoring signal is an upper-case website URL. -/
def upperHttpLead : Lead :=
  { first_name := "Sam", last_name := "", email := "sam@x.com",
    company_name := "ZZ Corp", industry := "Retail",
    website := "HTTP://X.COM", title := "Clerk", linkedin := "" }

/-- C2 counterexample: the claim's reading — website rule case-insensitive
like the others — gives `upperHttpLead` 10 points, but the source performs
a case-sensitive check `'http' in lead.website` and scores it 0, so the
claim's formula is not the one computed. -/
theorem C2_lead_score_counterexample :
    claim_lead_score upperHttpLead = 10 ∧
    calculate_lead_score upperHttpLead = 0 ∧
    calculate_lead_score upperHttpLead ≠ claim_lead_score upperHttpLead := by
  refine ⟨by decide, by decide, by decide⟩

/-- C2 amended: for every Lead, `calculate_lead_score` is a pure total
function whose value is exactly the sum of the five independent rules
(company +25, industry +30, title +25 — these three case-insensitive —
website non-empty and containing `http` case-SENSITIVELY +10, linkedin
non-empty +10) clamped to a maximum of 100, and that value lies in
[0, 100]. -/
theorem C2_lead_score_spec_and_range (l : Lead) :
    calculate_lead_score l = spec_lead_score l ∧
    0 ≤ calculate_lead_score l ∧ calculate_lead_score l ≤ 100 :=
  ⟨score_eq_spec l,
   score_eq_spec l ▸ spec_lead_score_nonneg l,
   score_eq_spec l ▸ spec_lead_score_le_100 l⟩

/-- C3: `assign_campaign_by_score` is total and deterministic over all
integers, returns each tier exactly on its stated range (so the three
ranges partition the integers, in particular [0,100], with no gaps or
overlaps), is monotonic non-decreasing in the score, and routes the
boundary scores 59, 60, 79, 80 as stated. -/
theorem C3_router_spec (s : Int) :
    (assign_campaign_by_score s = "enterprise-direct-pitch" ↔ 80 ≤ s) ∧
    (assign_campaign_by_score s = "professional-nurture" ↔ 60 ≤ s ∧ s < 80) ∧
    (assign_campaign_by_score s = "educational-sequence" ↔ s < 60) ∧
    (∀ t : Int, s ≤ t →
      tierRank (assign_campaign_by_score s) ≤ tierRank (assign_campaign_by_score t)) ∧
    assign_campaign_by_score 59 = "educational-sequence" ∧
    assign_campaign_by_score 60 = "professional-nurture" ∧
    assign_campaign_by_score 79 = "professional-nurture" ∧
    assign_campaign_by_score 80 = "enterprise-direct-pitch" := by
  refine ⟨?_, ?_, ?_, ?_, by decide, by decide, by decide, by decide⟩
  · unfold assign_campaign_by_score
    split_ifs with h1 h2
    · exact iff_of_true rfl h1
    · exact iff_of_false (by decide) h1
    · exact iff_of_false (by decide) h1
  · unfold assign_campaign_by_score
    split_ifs with h1 h2
    · exact iff_of_false (by decide) (by omega)
    · exact iff_of_true rfl (by omega)
    · exact iff_of_false (by decide) (by omega)
  · unfold assign_campaign_by_score
    split_ifs with h1 h2
    · exact iff_of_false (by decide) (by omega)
    · exact iff_of_false (by decide) (by omega)
    · exact iff_of_true rfl (by omega)
  · intro t ht
    unfold assign_campaign_by_score
    split_ifs <;> first | decide | omega

/-- C3 witness: the monotonicity conjunct applied at scores 59 ≤ 80. -/
theorem C3_router_witness :
    tierRank (assign_campaign_by_score 59) ≤ tierRank (assign_campaign_by_score 80) :=
  (C3_router_spec 59).2.2.2.1 80 (by decide)

/-- C8: changing a lead so that every scoring rule it satisfied is still
satisfied (in particular, adding a matching keyword to one scoring field)
never decreases the score. -/
theorem C8_score_monotone (L L' : Lead)
    (h1 : companyRule L = true → companyRule L' = true)
    (h2 : industryRule L = true → industryRule L' = true)
    (h3 : titleRule L = true → titleRule L' = true)
    (h4 : websiteRule L = true → websiteRule L' = true)
    (h5 : linkedinRule L = true → linkedinRule L' = true) :
    calculate_lead_score L ≤ calculate_lead_score L' := by
  rw [score_eq_spec, score_eq_spec]
  unfold spec_lead_score
  refine min_le_min ?_ le_rfl
  have m1 := indicator_mono (a := companyRule L) (b := companyRule L') (c := 25) (by decide) h1
  have m2 := indicator_mono (a := industryRule L) (b := industryRule L') (c := 30) (by decide) h2
  have m3 := indicator_mono (a := titleRule L) (b := titleRule L') (c := 25) (by decide) h3
  have m4 := indicator_mono (a := websiteRule L) (b := websiteRule L') (c := 10) (by decide) h4
  have m5 := indicator_mono (a := linkedinRule L) (b := linkedinRule L') (c := 10) (by decide) h5
  omega

/-- A lead matching no scoring rule. -/
def monoLeadBase : Lead :=
  { first_name := "Sam", last_name := "", email := "sam@acme.co",
    company_name := "Acme", industry := "Retail", website := "",
    title := "Clerk", linkedin := "" }

/-- `monoLeadBase` with a matching keyword added to the company name. -/
def monoLeadMore : Lead :=
  { first_name := "Sam", last_name := "", email := "sam@acme.co",
    company_name := "Acme Agency", industry := "Retail", website := "",
    title := "Clerk", linkedin := "" }

/-- C8 witness: adding the keyword "Agency" to the company name of a
keyword-free lead does not decrease the score. -/
theorem C8_score_monotone_witness :
    calculate_lead_score monoLeadBase ≤ calculate_lead_score monoLeadMore :=
  C8_score_monotone monoLeadBase monoLeadMore
    (by decide) (by decide) (by decide) (by decide) (by decide)

theorem bumpDist_total (s : RunStatistics) (c : String) :
    (bumpDist s c).total_processed = s.total_processed := by
  unfold bumpDist; split_ifs <;> rfl

theorem bumpDist_successful (s : RunStatistics) (c : String) :
    (bumpDist s c).successful = s.successful := by
  unfold bumpDist; split_ifs <;> rfl

theorem bumpDist_failed (s : RunStatistics) (c : String) :
    (bumpDist s c).failed = s.failed := by
  unfold bumpDist; split_ifs <;> rfl

/-- The router only produces the three tier names, so the distribution bump
of a successful lead always lands in exactly one tier counter. -/
theorem bumpDist_distSum_assign (s : RunStatistics) (score : Int) :
    distSum (bumpDist s (assign_campaign_by_score score)) = distSum s + 1 := by
  unfold assign_campaign_by_score
  split_ifs <;> (simp [bumpDist, distSum]; omega)

theorem foldl_total (items : List (Lead × Outcome)) (s : RunStatistics) :
    (items.foldl processStep s).total_processed = s.total_processed + items.length := by
  induction items generalizing s with
  | nil => simp
  | cons it rest ih =>
    obtain ⟨l, o⟩ := it
    cases o <;> simp [List.foldl, ih, processStep, bumpDist_total] <;> omega

theorem foldl_successful (items : List (Lead × Outcome)) (s : RunStatistics) :
    (items.foldl processStep s).successful
      = s.successful + items.countP (fun it => isOk it.2) := by
  induction items generalizing s with
  | nil => simp
  | cons it rest ih =>
    obtain ⟨l, o⟩ := it
    cases o <;> simp [List.foldl, List.countP_cons, ih, processStep, bumpDist_successful, isOk] <;>
      try omega

theorem foldl_failed (items : List (Lead × Outcome)) (s : RunStatistics) :
    (items.foldl processStep s).failed
      = s.failed + items.countP (fun it => !(isOk it.2)) := by
  induction items generalizing s with
  | nil => simp
  | cons it rest ih =>
    obtain ⟨l, o⟩ := it
    cases o <;> simp [List.foldl, List.countP_cons, ih, processStep, bumpDist_failed, isOk]
      <;> omega

theorem foldl_distSum (items : List (Lead × Outcome)) (s : RunStatistics) :
    distSum (items.foldl processStep s)
      = distSum s + items.countP (fun it => isOk it.2) := by
  induction items generalizing s with
  | nil => simp
  | cons it rest ih =>
    obtain ⟨l, o⟩ := it
    cases o with
    | ok =>
      have hb := bumpDist_distSum_assign s (calculate_lead_score l)
      simp only [List.foldl, List.countP_cons, processStep, ih]
      simp only [distSum] at hb ⊢
      simp [isOk]
      omega
    | dispatchFail =>
      simp only [List.foldl, processStep]
      rw [ih]
      simp [distSum, List.countP_cons, isOk]
    | raised =>
      simp only [List.foldl, processStep]
      rw [ih]
      simp [distSum, List.countP_cons, isOk]

theorem countP_ok_add_not (items : List (Lead × Outcome)) :
    items.countP (fun it => isOk it.2) + items.countP (fun it => !(isOk it.2))
      = items.length := by
  induction items with
  | nil => simp
  | cons it rest ih =>
    cases h : isOk it.2 <;> simp [List.countP_cons, h] <;> omega

/-- C1: batch processing isolates per-lead failures: when exactly one lead's
dispatch fails (non-success response or a raised exception), the returned
statistics count that one lead as failed, every other lead is still
processed and counted as successful, and the per-tier campaign distribution
sums to `successful` — no per-lead failure aborts the batch. -/
theorem C1_failure_isolation (items : List (Lead × Outcome))
    (h : items.countP (fun it => !(isOk it.2)) = 1) :
    (process_leads_batch items).failed = 1 ∧
    (process_leads_batch items).successful = items.length - 1 ∧
    (process_leads_batch items).total_processed = items.length ∧
    distSum (process_leads_batch items) = (process_leads_batch items).successful := by
  have hc := countP_ok_add_not items
  unfold process_leads_batch
  rw [foldl_failed, foldl_successful, foldl_total, foldl_distSum]
  simp only [initStats, distSum, and_true]
  omega

/-- Three leads whose dispatch succeeds, fails, succeeds respectively. -/
def demoItems : List (Lead × Outcome) :=
  [(monoLeadBase, Outcome.ok),
   (monoLeadMore, Outcome.dispatchFail),
   (monoLeadBase, Outcome.ok)]

/-- C1 witness: a three-lead batch whose middle dispatch fails yields
failed = 1, successful = 2, total = 3, and a tier distribution summing to 2. -/
theorem C1_failure_isolation_witness :
    (process_leads_batch demoItems).failed = 1 ∧
    (process_leads_batch demoItems).successful = demoItems.length - 1 ∧
    (process_leads_batch demoItems).total_processed = demoItems.length ∧
    distSum (process_leads_batch demoItems) = (process_leads_batch demoItems).successful :=
  C1_failure_isolation demoItems (by decide)

/-- C9: accounting invariant of `process_leads_batch`: for every input,
`total_processed = successful + failed = number of leads` — every lead is
counted exactly once whether it succeeds, gets a non-success dispatch
response, or raises — and all counters are non-negative. -/
theorem C9_batch_accounting (items : List (Lead × Outcome)) :
    (process_leads_batch items).total_processed
        = (process_leads_batch items).successful + (process_leads_batch items).failed ∧
    (process_leads_batch items).total_processed = items.length ∧
    0 ≤ (process_leads_batch items).total_processed ∧
    0 ≤ (process_leads_batch items).successful ∧
    0 ≤ (process_leads_batch items).failed ∧
    0 ≤ (process_leads_batch items).dist_enterprise ∧
    0 ≤ (process_leads_batch items).dist_professional ∧
    0 ≤ (process_leads_batch items).dist_educational := by
  have hc := countP_ok_add_not items
  unfold process_leads_batch
  rw [foldl_failed, foldl_successful, foldl_total]
  simp only [initStats]
  omega

/-- C10: `generate_processing_report` renders the success rate by dividing
`successful` by `total_processed`, so any statistics with
`total_processed = 0` — such as the result of `process_leads_batch` on the
empty lead list — makes it raise a division-by-zero error instead of
producing a report. -/
theorem C10_report_div_by_zero (s : RunStatistics) (h : s.total_processed = 0) :
    generate_processing_report s = Except.error "ZeroDivisionError: division by zero" ∧
    (process_leads_batch []).total_processed = 0 := by
  refine ⟨?_, rfl⟩
  unfold generate_processing_report
  rw [if_pos h]

/-- C10 witness: the statistics of an empty run make the report generator
fail with the division-by-zero error. -/
theorem C10_report_div_by_zero_witness :
    generate_processing_report (process_leads_batch [])
        = Except.error "ZeroDivisionError: division by zero" ∧
    (process_leads_batch []).total_processed = 0 :=
  C10_report_div_by_zero (process_leads_batch []) (by decide)

/-- The row loop keeps exactly the validating leads, in order, and counts
exactly the non-validating candidates as skipped. -/
theorem leadLoop_eq (ls : List Lead) :
    leadLoop ls = (ls.filter validate_lead, ls.countP (fun l => !(validate_lead l))) := by
  induction ls with
  | nil => rfl
  | cons l rest ih =>
    unfold leadLoop
    rw [ih]
    cases h : validate_lead l <;> simp [List.filter_cons, List.countP_cons, h]

/-- Validation accepts exactly the leads satisfying the three invariants of
the specification. -/
theorem validate_lead_iff (l : Lead) :
    validate_lead l = true ↔
      (l.email.data.contains '@' = true ∧ 2 ≤ (pyStrip l.company_name).length ∧
        (l.first_name ≠ "" ∨ l.last_name ≠ "")) := by
  unfold validate_lead
  split_ifs with h1 h2 h3
  · simp only [false_iff]
    intro hcl
    rcases h1 with h1 | h1
    · rcases hcl with ⟨hc, -, -⟩
      rw [h1] at hc
      exact absurd hc (by decide)
    · rw [hcl.1] at h1
      exact absurd h1 (by decide)
  · simp only [false_iff]
    intro hcl
    rcases h2 with h2 | h2
    · have h2' : (pyStrip l.company_name).length = 0 := by
        rw [h2]; rfl
      omega
    · omega
  · simp only [false_iff]
    intro hcl
    rcases hcl.2.2 with hn | hn
    · exact hn h3.1
    · exact hn h3.2
  · simp only [true_iff]
    push_neg at h1 h2 h3
    refine ⟨?_, ?_, ?_⟩
    · simpa using h1.2
    · omega
    · by_cases hf : l.first_name = ""
      · exact Or.inr (h3 hf)
      · exact Or.inl hf

/-- C5: every Lead produced by ingestion satisfies the normalizer
invariant — `'@'` occurs in the email, the trimmed company name has at
least 2 characters, and at least one name field is non-empty — and every
row whose candidate lead violates any of these is excluded from the result
and counted as skipped, never yielded. -/
theorem C5_normalizer_invariant (data_source : String) (df : DataFrame)
    (leads : List Lead)
    (h : process_dataframe_to_leads data_source df = Except.ok leads) :
    (∀ l ∈ leads,
        l.email.data.contains '@' = true ∧ 2 ≤ (pyStrip l.company_name).length ∧
          (l.first_name ≠ "" ∨ l.last_name ≠ "")) ∧
    leads = (candidateLeads data_source df).filter validate_lead ∧
    (leadLoop (candidateLeads data_source df)).2
      = (candidateLeads data_source df).countP (fun l => !(validate_lead l)) := by
  unfold process_dataframe_to_leads at h
  rw [leadLoop_eq] at h ⊢
  split_ifs at h with h0
  cases h
  refine ⟨?_, rfl, rfl⟩
  intro l hl
  rw [List.mem_filter] at hl
  exact (validate_lead_iff l).mp hl.2

/-- An input whose single row yields a valid lead under the identity
FindyLead column names. -/
def okDf : DataFrame :=
  { headers := ["email", "company_name", "first_name"],
    rows := [["a@b.com", "Acme Co", "Sam"]] }

/-- C5 witness: ingesting `okDf` yields one lead, and it satisfies the
normalizer invariant. -/
theorem C5_normalizer_invariant_witness :
    (∀ l ∈ [({ first_name := "Sam", last_name := "", email := "a@b.com",
               company_name := "Acme Co", industry := "", website := "",
               title := "", linkedin := "" } : Lead)],
        l.email.data.contains '@' = true ∧ 2 ≤ (pyStrip l.company_name).length ∧
          (l.first_name ≠ "" ∨ l.last_name ≠ "")) ∧
    [({ first_name := "Sam", last_name := "", email := "a@b.com",
        company_name := "Acme Co", industry := "", website := "",
        title := "", linkedin := "" } : Lead)]
      = (candidateLeads "csv" okDf).filter validate_lead ∧
    (leadLoop (candidateLeads "csv" okDf)).2
      = (candidateLeads "csv" okDf).countP (fun l => !(validate_lead l)) :=
  C5_normalizer_invariant "csv" okDf _ (by decide)

/-- C6: when zero rows pass lead validation, ingestion raises the
ingestion-error condition (`ValueError("No valid leads found in data
source")`) rather than returning an empty lead list. -/
theorem C6_zero_valid_leads_error (data_source : String) (df : DataFrame)
    (h : ∀ l ∈ candidateLeads data_source df, validate_lead l = false) :
    process_dataframe_to_leads data_source df
      = Except.error "No valid leads found in data source" := by
  unfold process_dataframe_to_leads
  rw [leadLoop_eq]
  have : (candidateLeads data_source df).filter validate_lead = [] := by
    rw [List.filter_eq_nil_iff]
    intro a ha
    simp [h a ha]
  rw [if_pos (by simp [this])]

/-- An input whose single row has no `@` in the email, so no lead validates. -/
def badDf : DataFrame :=
  { headers := ["email", "company_name", "first_name"],
    rows := [["not-an-email", "Acme Co", "Sam"]] }

/-- C6 witness: ingesting `badDf`, whose only candidate lead fails
validation, raises the ingestion error. -/
theorem C6_zero_valid_leads_error_witness :
    process_dataframe_to_leads "csv" badDf
      = Except.error "No valid leads found in data source" :=
  C6_zero_valid_leads_error "csv" badDf (by decide)

/-- The example lead of the specification: company "Acme Co", empty
industry, first name "Sam". -/
def acmeLead : Lead :=
  { first_name := "Sam", last_name := "", email := "sam@acme.co",
    company_name := "Acme Co", industry := "", website := "",
    title := "", linkedin := "" }

/-- C4 counterexample: with the relay unreachable, the client's response
does carry `status = "fallback"`, but its text is the client-side default
template, which ends in "... space" with no trailing period — not the
claimed "... space." — so the claim's conjunction fails on the code. -/
theorem C4_fallback_counterexample :
    (generate_icebreaker (toN8nLead acmeLead) RelayOutcome.connectionError).status
        = "fallback" ∧
    (generate_icebreaker (toN8nLead acmeLead) RelayOutcome.connectionError).icebreaker
        = "Impressed by what you're building at Acme Co, particularly your approach in the business space" ∧
    ¬ ((generate_icebreaker (toN8nLead acmeLead) RelayOutcome.connectionError).icebreaker
        = "Impressed by what you're building at Acme Co, particularly your approach in the business space.") := by
  refine ⟨rfl, rfl, ?_⟩
  decide

/-- C4 amended: for every lead, when the relay call fails in any way the
client returns `status = "fallback"` without raising, with text equal to
the client-side default fallback template — which has no trailing
period — formatted with the lead's company name and industry (defaulting
to "business" when the industry is empty); the processor keeps that text
verbatim.  The processor-level fallback template (used when no relay
client exists and the direct AI call is unavailable) produces the same
sentence with a trailing period. -/
theorem C4_fallback_amended (l : Lead) (o : RelayOutcome)
    (h : ∀ body, o ≠ RelayOutcome.ok body) :
    (generate_icebreaker (toN8nLead l) o).status = "fallback" ∧
    (generate_icebreaker (toN8nLead l) o).icebreaker
        = n8nFallbackIcebreaker (toN8nLead l) ∧
    generate_n8n_icebreaker l o = n8nFallbackIcebreaker (toN8nLead l) ∧
    generate_claude_icebreaker_noclient l = get_icebreaker_fallback l := by
  cases o with
  | ok body => exact absurd rfl (h body)
  | httpError code => exact ⟨rfl, rfl, rfl, rfl⟩
  | timeout => exact ⟨rfl, rfl, rfl, rfl⟩
  | connectionError => exact ⟨rfl, rfl, rfl, rfl⟩
  | exception msg => exact ⟨rfl, rfl, rfl, rfl⟩

/-- C4 witness: the amended statement at the specification's example lead
with an unreachable relay; its fallback text reads "... in the business
space" with no trailing period, while the processor-level template yields
the spec's literal sentence with the period. -/
theorem C4_fallback_amended_witness :
    ((generate_icebreaker (toN8nLead acmeLead) RelayOutcome.connectionError).status
        = "fallback" ∧
      (generate_icebreaker (toN8nLead acmeLead) RelayOutcome.connectionError).icebreaker
        = n8nFallbackIcebreaker (toN8nLead acmeLead) ∧
      generate_n8n_icebreaker acmeLead RelayOutcome.connectionError
        = n8nFallbackIcebreaker (toN8nLead acmeLead) ∧
      generate_claude_icebreaker_noclient acmeLead = get_icebreaker_fallback acmeLead) ∧
    get_icebreaker_fallback acmeLead
      = "Impressed by what you're building at Acme Co, particularly your approach in the business space." :=
  ⟨C4_fallback_amended acmeLead RelayOutcome.connectionError (fun _ hh => by cases hh),
   by decide⟩

/-- An input whose headers differ from the canonical FindyLead names only
in letter case. -/
def caseDf : DataFrame :=
  { headers := ["Email", "Company_Name", "First_Name"],
    rows := [["a@b.com", "Acme Co", "Sam"]] }

/-- C7: the case-insensitive scan does resolve the mapping (it maps `email`
to the lowercase alias "email"), and the configured default is overridden;
but row extraction then looks the alias up among the original headers
`["Email", ...]`, finds nothing, and leaves every field empty — so a
header differing from an alias only in letter case does NOT supply the
field's value, and the whole ingestion fails, contradicting the claim.
The lowering in `detect_csv_columns` shows case-insensitive support is the
intent; storing the lowered alias instead of the original header name is
the slip. -/
theorem C7_case_insensitive_detection_broken :
    detect_csv_columns caseDf.headers Field.email = some "email" ∧
    final_mapping "csv" caseDf.headers Field.email = "email" ∧
    (rowToLead "csv" caseDf ["a@b.com", "Acme Co", "Sam"]).email = "" ∧
    (rowToLead "csv" caseDf ["a@b.com", "Acme Co", "Sam"]).company_name = "" ∧
    validate_lead (rowToLead "csv" caseDf ["a@b.com", "Acme Co", "Sam"]) = false ∧
    process_dataframe_to_leads "csv" caseDf
      = Except.error "No valid leads found in data source" := by
  refine ⟨by decide, by decide, by decide, by decide, by decide, by decide⟩

end ColdEmail
